import Mathlib

/-!
Shallow embedding of `allowfail.py`: a small error-containment utility
offering a decorator mode (`AllowFail.__call__` producing `protect`) and a
scoped-block mode (`AllowFail.__enter__` / `AllowFail.__exit__`), both
funnelling failures into a pluggable error handler.

Modelling choices:
* A Python exception is `Exc`: an `ExcType` (class name plus whether the
  class derives from `Exception`, i.e. is caught by `except Exception`)
  and an optional message.  `KeyboardInterrupt` / `SystemExit` have
  `catchable := false`.
* `%`-interpolation of the label template is `pyFormat` over a tokenised
  template (`Tok.lit` / `Tok.hole` for `%s`); a placeholder/param count
  mismatch raises `TypeError`, as CPython does.
* Observable side effects are `Event`s: an invocation of the configured
  error handler with its two arguments, or a warning-level log record on
  a named channel.  An error handler is a function from the formatted
  label and the error to the events it emits plus an optional exception
  it raises.
* `protect` models one call of the decorated function: the behaviour of
  `func(*args, **kwg)` on the given arguments is an `Except Exc V`.
  The result is `Except Exc (List Event × AllowFailResult V)`: either an
  exception propagating out of the wrapped call, or the emitted events
  together with the returned `AllowFailResult`.
-/

/-- A Python exception class: its name, and whether it is a subclass of
`Exception` (so that `except Exception` catches it).  Process-level
signals such as `KeyboardInterrupt` and `SystemExit` derive only from
`BaseException`, hence `catchable := false`. -/
structure ExcType where
  name : String
  catchable : Bool
  deriving DecidableEq, Repr

/-- A Python exception instance: its class and optional message. -/
structure Exc where
  ty : ExcType
  msg : Option String
  deriving DecidableEq, Repr

/-- `str(err)` for an exception: its message, empty when absent. -/
def excStr (e : Exc) : String :=
  e.msg.getD ""

/-- A token of a `%`-format template: literal text or a `%s` placeholder. -/
inductive Tok where
  | lit (s : String)
  | hole
  deriving DecidableEq, Repr

/-- `TypeError` raised by `%` when the template has more placeholders than
arguments. -/
def notEnoughArgs : Exc :=
  ⟨⟨"TypeError", true⟩, some "not enough arguments for format string"⟩

/-- `TypeError` raised by `%` when some arguments are left over. -/
def argsLeftOver : Exc :=
  ⟨⟨"TypeError", true⟩, some "not all arguments converted during string formatting"⟩

/-- Python `template % params` for `%s` placeholders and string params:
substitutes params left to right, raising `TypeError` on a count
mismatch. -/
def pyFormat : List Tok → List String → Except Exc String
  | [], [] => Except.ok ""
  | [], _ :: _ => Except.error argsLeftOver
  | Tok.lit s :: rest, ps => (pyFormat rest ps).map (fun t => s ++ t)
  | Tok.hole :: _, [] => Except.error notEnoughArgs
  | Tok.hole :: rest, p :: ps => (pyFormat rest ps).map (fun t => p ++ t)

/-- An observable side effect of a guarded computation. -/
inductive Event where
  | handlerCall (label : String) (err : Exc)
  | logWarning (channel : String) (message : String)
  deriving DecidableEq, Repr

/-- An error handler: receives the formatted label and the error, emits a
list of events and optionally raises an exception of its own. -/
def Handler : Type :=
  String → Exc → List Event × Option Exc

/-- The state of one `AllowFail` instance after `__init__`:
`label` and `params` as stored, `error_handler` (`none` means the default
bound method `on_error` was kept), and the logger, modelled by the name of
its channel. -/
structure AllowFail where
  label : List Tok
  params : List String
  error_handler : Option Handler
  logger : String

/-- `AllowFail.__init__`: stores label and params, pops `on_error` from the
options (defaulting to the instance's own `on_error` method) and `logger`
(defaulting to the class attribute `logging.getLogger("OnError")`). -/
def AllowFail.init (label : List Tok) (params : List String)
    (opts_on_error : Option Handler) (opts_logger : Option String) : AllowFail :=
  { label := label, params := params,
    error_handler := opts_on_error,
    logger := opts_logger.getD "OnError" }

/-- The text of the record `logging` produces for
`warning("%s got an error: %s", label, err)`. -/
def warnText (label : String) (err : Exc) : String :=
  label ++ (" got an error: " ++ excStr err)

/-- `AllowFail.on_error`, the default handler:
`self.logger.warning("%s got an error: %s", label, err)` — one
warning-level record on the instance's logger, raising nothing. -/
def AllowFail.on_error (g : AllowFail) : Handler :=
  fun label err =>
    ([Event.logWarning g.logger (warnText label err)], none)

/-- The handler actually stored in `self.error_handler`: the custom one if
`on_error` was supplied, else the default bound method. -/
def effectiveHandler (g : AllowFail) : Handler :=
  g.error_handler.getD (AllowFail.on_error g)

/-- A call `self.error_handler(l, e)`: records the invocation itself as an
event, then the handler's own events and optional raised exception. -/
def callHandler (g : AllowFail) (l : String) (e : Exc) : List Event × Option Exc :=
  let r := effectiveHandler g l e
  (Event.handlerCall l e :: r.1, r.2)

/-- `AllowFail.__exit__(self, typ, val, trbk)`: when an exception type is
present, replaces a `None` value by `typ()` (an instance of the same class
with no message), formats the label and calls the error handler, then
returns `True`.  The result is the events emitted and either the exception
escaping `__exit__` (from formatting or from the handler) or the returned
boolean. -/
def exitAF (g : AllowFail) (typ : Option ExcType) (val : Option Exc) :
    List Event × Except Exc Bool :=
  match typ with
  | none => ([], Except.ok true)
  | some t =>
    let v := val.getD ⟨t, none⟩
    match pyFormat g.label g.params with
    | Except.error fe => ([], Except.error fe)
    | Except.ok fl =>
      match callHandler g fl v with
      | (evs, some he) => (evs, Except.error he)
      | (evs, none) => (evs, Except.ok true)

/-- A `with g: body` statement.  The body is given by the events it emits
and the exception it raises, if any (`__enter__` returns `self` and has no
effects).  Per the context-manager protocol, `__exit__` is called with the
in-flight exception (of any class, `BaseException` included); an exception
raised by `__exit__` itself propagates, a `True` return suppresses the
body's exception, a `False` return re-raises it. -/
def withStmt (g : AllowFail) (body : List Event × Option Exc) :
    List Event × Option Exc :=
  match body with
  | (evs, none) =>
    let r := exitAF g none none
    (evs ++ r.1, none)
  | (evs, some e) =>
    let r := exitAF g (some e.ty) (some e)
    match r.2 with
    | Except.error e2 => (evs ++ r.1, some e2)
    | Except.ok true => (evs ++ r.1, none)
    | Except.ok false => (evs ++ r.1, some e)

/-- The namedtuple `AllowFailResult(ok, result)`; `result` is the wrapped
function's return value on success, comparable to the captured exception
object on failure. -/
structure AllowFailResult (V : Type) where
  ok : Bool
  result : V ⊕ Exc
  deriving DecidableEq, Repr

/-- The body of the nested `with` in `protect`:
`self.error_handler(self.label % self.params, err)` — formatting may
raise inside the block, otherwise the (outer guard's) handler is called
with the formatted label and the original error. -/
def reportBody (g : AllowFail) (err : Exc) : List Event × Option Exc :=
  match pyFormat g.label g.params with
  | Except.error fe => ([], some fe)
  | Except.ok fl => callHandler g fl err

/-- The formatted label of the nested fallback guard in `protect`:
`"On error handler: %s" % (f_name,)`. -/
def nestedLabel (f_name : String) : String :=
  "On error handler: " ++ f_name

/-- The fresh guard `AllowFail("On error handler: %s", f_name)` built by
`protect` around the report of a caught failure: no options, hence the
default handler and the class-attribute logger `"OnError"`. -/
def nestedGuard (f_name : String) : AllowFail :=
  AllowFail.init [Tok.lit "On error handler: ", Tok.hole] [f_name] none none

/-- The events the nested fallback guard emits when an exception `e`
escapes its block: it calls its default handler with the formatted nested
label and `e`, which logs one warning on the `"OnError"` channel. -/
def nestedReportEvents (f_name : String) (e : Exc) : List Event :=
  [Event.handlerCall (nestedLabel f_name) e,
   Event.logWarning "OnError" (warnText (nestedLabel f_name) e)]

/-- `protect(*args, **kwg)`, the wrapper returned by `AllowFail.__call__`.
`fname` is `func.__name__` (or `func.func_name`) when the attribute
exists, `frepr` is `str(func)`, and `call` is the behaviour of
`func(*args, **kwg)` on this argument list: a return value or a raised
exception.  `except Exception` catches only `catchable` exceptions; on a
catch, the failure is reported inside a fresh
`AllowFail("On error handler: %s", f_name)` guard, then the
`AllowFailResult` is returned. -/
def protect (g : AllowFail) (fname : Option String) (frepr : String)
    (call : Except Exc V) : Except Exc (List Event × AllowFailResult V) :=
  match call with
  | Except.ok v => Except.ok ([], ⟨true, Sum.inl v⟩)
  | Except.error err =>
    if err.ty.catchable then
      let f_name := fname.getD frepr
      let r := withStmt (nestedGuard f_name) (reportBody g err)
      match r.2 with
      | some e2 => Except.error e2
      | none => Except.ok (r.1, ⟨false, Sum.inr err⟩)
    else
      Except.error err

/-! ### Helper lemmas about the nested fallback guard and the exit path -/

theorem pyFormat_nestedGuard (f_name : String) :
    pyFormat [Tok.lit "On error handler: ", Tok.hole] [f_name] =
      Except.ok (nestedLabel f_name) := by
  simp [pyFormat, Except.map, nestedLabel, String.append_empty]

theorem exitAF_nestedGuard (f_name : String) (e : Exc) :
    exitAF (nestedGuard f_name) (some e.ty) (some e) =
      (nestedReportEvents f_name e, Except.ok true) := by
  simp [exitAF, pyFormat_nestedGuard, callHandler, effectiveHandler,
    nestedGuard, AllowFail.init, AllowFail.on_error, nestedReportEvents]

theorem withStmt_nestedGuard_some (f_name : String) (evs : List Event) (e : Exc) :
    withStmt (nestedGuard f_name) (evs, some e) =
      (evs ++ nestedReportEvents f_name e, none) := by
  simp [withStmt, exitAF_nestedGuard]

theorem withStmt_nestedGuard_none (f_name : String) (evs : List Event) :
    withStmt (nestedGuard f_name) (evs, none) = (evs, none) := by
  simp [withStmt, exitAF]

theorem exitAF_handler_ok (g : AllowFail) (e : Exc) (fl : String)
    (hevs : List Event) (hf : pyFormat g.label g.params = Except.ok fl)
    (hh : effectiveHandler g fl e = (hevs, none)) :
    exitAF g (some e.ty) (some e) =
      (Event.handlerCall fl e :: hevs, Except.ok true) := by
  simp [exitAF, hf, callHandler, hh]

theorem exitAF_handler_raise (g : AllowFail) (e he : Exc) (fl : String)
    (hevs : List Event) (hf : pyFormat g.label g.params = Except.ok fl)
    (hh : effectiveHandler g fl e = (hevs, some he)) :
    exitAF g (some e.ty) (some e) =
      (Event.handlerCall fl e :: hevs, Except.error he) := by
  simp [exitAF, hf, callHandler, hh]

theorem exitAF_ret_true (g : AllowFail) (typ : Option ExcType) (val : Option Exc)
    (evs : List Event) (b : Bool) (h : exitAF g typ val = (evs, Except.ok b)) :
    b = true := by
  unfold exitAF at h
  cases typ with
  | none =>
    injection h with h1 h2
    injection h2 with h3
    exact h3.symm
  | some t =>
    cases hf : pyFormat g.label g.params with
    | error fe => simp [hf] at h
    | ok fl =>
      rcases hc : callHandler g fl (val.getD ⟨t, none⟩) with ⟨cevs, cr⟩
      cases cr with
      | none =>
        simp [hf, hc] at h
        simp_all
      | some he => simp [hf, hc] at h

/-- The `ValueError("test exception")` raised in `test_decorator`. -/
def eVE : Exc := ⟨⟨"ValueError", true⟩, some "test exception"⟩

/-! ### Concrete fixtures (mirroring the repository's own test cases) -/

/-- The `ValueError("test exception")` of `test_decorator`. -/
def eVE0 : Exc := ⟨⟨"ValueError", true⟩, none⟩

/-- A `KeyboardInterrupt`: derives from `BaseException` only, so
`except Exception` does not catch it. -/
def eKI : Exc := ⟨⟨"KeyboardInterrupt", false⟩, none⟩

/-- The exception raised by the misbehaving handler fixture. -/
def heRT : Exc := ⟨⟨"RuntimeError", true⟩, some "handler failed"⟩

/-- A well-behaved custom handler: records one entry, raises nothing. -/
def hCache : Handler :=
  fun l e => ([Event.logWarning "cache" (l ++ ("/" ++ excStr e))], none)

/-- A misbehaving custom handler: raises `heRT` on every invocation. -/
def hBoom : Handler :=
  fun _ _ => ([], some heRT)

/-- `AllowFail("test %s", "valueerror", on_error=log)`. -/
def gTest : AllowFail :=
  AllowFail.init [Tok.lit "test ", Tok.hole] ["valueerror"] (some hCache) none

/-- `AllowFail("test %s", "contextmanager")` with no options. -/
def gDefault : AllowFail :=
  AllowFail.init [Tok.lit "test ", Tok.hole] ["contextmanager"] none none

/-- A guard with a raising handler and a custom logger. -/
def gBoom : AllowFail :=
  AllowFail.init [Tok.lit "test ", Tok.hole] ["x"] (some hBoom) (some "mylog")

/-- A guard whose label has two placeholders but only one param, so
`self.label % self.params` raises `TypeError`. -/
def gBadLabel : AllowFail :=
  AllowFail.init [Tok.hole, Tok.hole] ["a"] none none

/-- A mismatched-label guard that also has a custom handler. -/
def gBoomBad : AllowFail :=
  AllowFail.init [Tok.hole, Tok.hole] ["a"] (some hBoom) none

/-! ### Claims -/

/-- C2: for every function returning normally with value `v`, the wrapped
call returns `AllowFailResult(ok=True, result=v)`, and no handler
invocation or log record is produced (the event list is empty). -/
theorem decorator_success_contract (V : Type) (g : AllowFail)
    (fname : Option String) (frepr : String) (v : V) :
    @protect V g fname frepr (Except.ok v) =
      Except.ok ([], ⟨true, Sum.inl v⟩) := rfl

/-- C1: for every function raising a catchable exception `e`, the wrapped
call returns `AllowFailResult(ok=False, result=e)` with the very same
error object and does not raise; the first emitted event is the invocation
of the configured error handler with the interpolated label (never the raw
template) and the original error object `e`. -/
theorem decorator_failure_contract (V : Type) (g : AllowFail)
    (fname : Option String) (frepr : String) (e : Exc) (fl : String)
    (hc : e.ty.catchable = true)
    (hf : pyFormat g.label g.params = Except.ok fl) :
    ∃ evs : List Event,
      @protect V g fname frepr (Except.error e) =
        Except.ok (evs, ⟨false, Sum.inr e⟩) ∧
      evs.head? = some (Event.handlerCall fl e) := by
  rcases hh : effectiveHandler g fl e with ⟨hevs, hr⟩
  have hbody : reportBody g e = (Event.handlerCall fl e :: hevs, hr) := by
    simp [reportBody, hf, callHandler, hh]
  cases hr with
  | none =>
    refine ⟨Event.handlerCall fl e :: hevs, ?_, rfl⟩
    simp [protect, hc, hbody, withStmt_nestedGuard_none]
  | some he =>
    refine ⟨(Event.handlerCall fl e :: hevs) ++
      nestedReportEvents (fname.getD frepr) he, ?_, ?_⟩
    · simp [protect, hc, hbody, withStmt_nestedGuard_some]
    · simp

/-- Witness for C1 at the repository's own test fixture. -/
theorem decorator_failure_contract_witness :
    ∃ evs : List Event,
      @protect Nat gTest (some "valueerror") "<function valueerror>"
          (Except.error eVE) =
        Except.ok (evs, ⟨false, Sum.inr eVE⟩) ∧
      evs.head? = some (Event.handlerCall "test valueerror" eVE) :=
  decorator_failure_contract Nat gTest (some "valueerror")
    "<function valueerror>" eVE "test valueerror" rfl rfl

/-- C3: a failure raised inside `with AllowFail(...)` is intercepted by
`__exit__`, the error handler is invoked exactly once with the
interpolated label and the raised error (the one `handlerCall` event,
followed only by the handler's own records), and the exception is
suppressed: the with-statement completes with no escaping exception. -/
theorem block_failure_suppressed (g : AllowFail) (e : Exc) (fl : String)
    (hevs bevs : List Event)
    (hf : pyFormat g.label g.params = Except.ok fl)
    (hh : effectiveHandler g fl e = (hevs, none)) :
    withStmt g (bevs, some e) =
      (bevs ++ Event.handlerCall fl e :: hevs, none) := by
  simp [withStmt, exitAF_handler_ok g e fl hevs hf hh]

/-- Witness for C3 at the repository's `test_contextmanager` fixture. -/
theorem block_failure_suppressed_witness :
    withStmt gDefault ([], some eVE0) =
      ([Event.handlerCall "test contextmanager" eVE0,
        Event.logWarning "OnError" (warnText "test contextmanager" eVE0)],
        none) :=
  block_failure_suppressed gDefault eVE0 "test contextmanager"
    [Event.logWarning "OnError" (warnText "test contextmanager" eVE0)] []
    rfl rfl

/-- The full behaviour of `protect` when the configured handler raises
`he` while reporting the caught error `e`: the original result is still
returned and the secondary failure is reported by the nested fresh
guard. -/
theorem protect_handler_raise (V : Type) (g : AllowFail)
    (fname : Option String) (frepr : String) (e he : Exc) (fl : String)
    (hevs : List Event) (hc : e.ty.catchable = true)
    (hf : pyFormat g.label g.params = Except.ok fl)
    (hh : effectiveHandler g fl e = (hevs, some he)) :
    @protect V g fname frepr (Except.error e) =
      Except.ok ((Event.handlerCall fl e :: hevs) ++
          nestedReportEvents (fname.getD frepr) he,
        ⟨false, Sum.inr e⟩) := by
  have hbody : reportBody g e = (Event.handlerCall fl e :: hevs, some he) := by
    simp [reportBody, hf, callHandler, hh]
  simp [protect, hc, hbody, withStmt_nestedGuard_some]

/-- C4: if the custom error handler raises while processing the original
failure, the decorated call still returns `AllowFailResult(ok=False)`
carrying the original error and does not raise; the secondary failure is
handed to a nested fresh guard whose label is
`"On error handler: %s" % f_name` with `f_name` the wrapped function's
`__name__` (falling back to `str(func)`), and nothing propagates. -/
theorem decorator_handler_failure_contained (V : Type) (g : AllowFail)
    (fname : Option String) (frepr : String) (e he : Exc) (fl : String)
    (hevs : List Event) (hc : e.ty.catchable = true)
    (hf : pyFormat g.label g.params = Except.ok fl)
    (hh : effectiveHandler g fl e = (hevs, some he)) :
    @protect V g fname frepr (Except.error e) =
      Except.ok ((Event.handlerCall fl e :: hevs) ++
          nestedReportEvents (fname.getD frepr) he,
        ⟨false, Sum.inr e⟩) ∧
    (nestedReportEvents (fname.getD frepr) he).head? =
      some (Event.handlerCall (nestedLabel (fname.getD frepr)) he) :=
  ⟨protect_handler_raise V g fname frepr e he fl hevs hc hf hh, rfl⟩

/-- Witness for C4: the raising handler `hBoom`, a named function. -/
theorem decorator_handler_failure_contained_witness :
    @protect Nat gBoom (some "boom") "<function boom>" (Except.error eVE) =
      Except.ok ((Event.handlerCall "test x" eVE :: []) ++
          nestedReportEvents "boom" heRT,
        ⟨false, Sum.inr eVE⟩) ∧
    (nestedReportEvents "boom" heRT).head? =
      some (Event.handlerCall (nestedLabel "boom") heRT) :=
  decorator_handler_failure_contained Nat gBoom (some "boom")
    "<function boom>" eVE heRT "test x" [] rfl rfl rfl

/-- C8: the nested fallback guard built for a handler failure is a fresh
default-configured guard: it has no custom handler and its logger is the
class-attribute `"OnError"` channel, so the secondary report is one
default-handler invocation plus one warning record on the literal
`"OnError"` channel — independent of the original guard's custom handler
and custom `logger`. -/
theorem handler_failure_fresh_default_guard (V : Type) (g : AllowFail)
    (fname : Option String) (frepr : String) (e he : Exc) (fl : String)
    (hevs : List Event) (hc : e.ty.catchable = true)
    (hf : pyFormat g.label g.params = Except.ok fl)
    (hh : effectiveHandler g fl e = (hevs, some he)) :
    @protect V g fname frepr (Except.error e) =
      Except.ok ((Event.handlerCall fl e :: hevs) ++
          [Event.handlerCall (nestedLabel (fname.getD frepr)) he,
           Event.logWarning "OnError"
             (warnText (nestedLabel (fname.getD frepr)) he)],
        ⟨false, Sum.inr e⟩) ∧
    (nestedGuard (fname.getD frepr)).error_handler = none ∧
    (nestedGuard (fname.getD frepr)).logger = "OnError" :=
  ⟨protect_handler_raise V g fname frepr e he fl hevs hc hf hh, rfl, rfl⟩

/-- Witness for C8: the original guard has a custom logger `"mylog"` and a
custom raising handler, yet the secondary report goes to `"OnError"`. -/
theorem handler_failure_fresh_default_guard_witness :
    @protect Nat gBoom (some "boom") "<function boom>" (Except.error eVE) =
      Except.ok ((Event.handlerCall "test x" eVE :: []) ++
          [Event.handlerCall (nestedLabel "boom") heRT,
           Event.logWarning "OnError" (warnText (nestedLabel "boom") heRT)],
        ⟨false, Sum.inr eVE⟩) ∧
    (nestedGuard "boom").error_handler = none ∧
    (nestedGuard "boom").logger = "OnError" :=
  handler_failure_fresh_default_guard Nat gBoom (some "boom")
    "<function boom>" eVE heRT "test x" [] rfl rfl rfl

/-- C5, counterexample: in decorator mode a label-interpolation failure
does NOT propagate.  `gBadLabel` has two placeholders and one param, so
`self.label % self.params` raises `TypeError`; but that expression is
evaluated inside the nested `with AllowFail("On error handler: %s", f_name)`
block, whose `__exit__` catches it, logs it on `"OnError"`, and suppresses
it — the wrapped call returns `ok=False` with the original error instead
of raising the formatting error. -/
theorem format_failure_decorator_counterexample :
    pyFormat gBadLabel.label gBadLabel.params = Except.error notEnoughArgs ∧
    @protect Nat gBadLabel (some "f") "<function f>" (Except.error eVE) =
      Except.ok (nestedReportEvents "f" notEnoughArgs,
        ⟨false, Sum.inr eVE⟩) := by
  constructor
  · rfl
  · rfl

/-- C5, amended: when `self.label % self.params` raises, the failure
propagates uncaught out of the with-statement in scoped-block mode; in
decorator mode it is raised inside the nested fallback guard, which
catches and logs it, so the wrapped call still returns
`AllowFailResult(ok=False, result=<original error>)` without raising. -/
theorem format_failure_propagation_modes (g : AllowFail) (fe : Exc)
    (hf : pyFormat g.label g.params = Except.error fe) :
    (∀ (bevs : List Event) (e : Exc),
        withStmt g (bevs, some e) = (bevs, some fe)) ∧
    (∀ (V : Type) (fname : Option String) (frepr : String) (e : Exc),
        e.ty.catchable = true →
        @protect V g fname frepr (Except.error e) =
          Except.ok (nestedReportEvents (fname.getD frepr) fe,
            ⟨false, Sum.inr e⟩)) := by
  constructor
  · intro bevs e
    simp [withStmt, exitAF, hf]
  · intro V fname frepr e hc
    have hbody : reportBody g e = ([], some fe) := by simp [reportBody, hf]
    simp [protect, hc, hbody, withStmt_nestedGuard_some]

/-- Witness for the amended C5, both modes at `gBadLabel`. -/
theorem format_failure_propagation_modes_witness :
    withStmt gBadLabel ([], some eVE0) = ([], some notEnoughArgs) ∧
    @protect Nat gBadLabel none "<function f>" (Except.error eVE0) =
      Except.ok (nestedReportEvents "<function f>" notEnoughArgs,
        ⟨false, Sum.inr eVE0⟩) :=
  ⟨(format_failure_propagation_modes gBadLabel notEnoughArgs rfl).1 [] eVE0,
   (format_failure_propagation_modes gBadLabel notEnoughArgs rfl).2
     Nat none "<function f>" eVE0 rfl⟩

/-- C6: when `__exit__` receives an exception type with a `None` value,
the handler is given `typ()` — a concrete instance of the same class with
no message — exactly as if that instance had been the in-flight value;
the first event is the handler invocation with that instantiated error. -/
theorem exit_instantiates_bare_signal (g : AllowFail) (t : ExcType)
    (fl : String) (hf : pyFormat g.label g.params = Except.ok fl) :
    exitAF g (some t) none = exitAF g (some t) (some ⟨t, none⟩) ∧
    (exitAF g (some t) none).1.head? =
      some (Event.handlerCall fl (⟨t, none⟩ : Exc)) := by
  refine ⟨rfl, ?_⟩
  rcases hh : effectiveHandler g fl (⟨t, none⟩ : Exc) with ⟨hevs, hr⟩
  cases hr <;> simp [exitAF, hf, callHandler, hh]

/-- Witness for C6 with a bare `ValueError` signal. -/
theorem exit_instantiates_bare_signal_witness :
    exitAF gDefault (some ⟨"ValueError", true⟩) none =
      exitAF gDefault (some ⟨"ValueError", true⟩) (some ⟨⟨"ValueError", true⟩, none⟩) ∧
    (exitAF gDefault (some ⟨"ValueError", true⟩) none).1.head? =
      some (Event.handlerCall "test contextmanager"
        (⟨⟨"ValueError", true⟩, none⟩ : Exc)) :=
  exit_instantiates_bare_signal gDefault ⟨"ValueError", true⟩
    "test contextmanager" rfl

/-- C7: with no custom handler, a failure produces exactly one
warning-level record through the guard's configured logger, of the form
`"<formatted label> got an error: <error>"`; and a guard built with no
`logger` option uses the `"OnError"` channel. -/
theorem default_handler_logs_warning (g : AllowFail) (e : Exc) (fl : String)
    (hd : g.error_handler = none)
    (hf : pyFormat g.label g.params = Except.ok fl) :
    exitAF g (some e.ty) (some e) =
      ([Event.handlerCall fl e, Event.logWarning g.logger (warnText fl e)],
        Except.ok true) ∧
    ∀ (l : List Tok) (p : List String) (oe : Option Handler),
      (AllowFail.init l p oe none).logger = "OnError" := by
  constructor
  · have hh : effectiveHandler g fl e =
        ([Event.logWarning g.logger (warnText fl e)], none) := by
      simp [effectiveHandler, hd, AllowFail.on_error]
    exact exitAF_handler_ok g e fl _ hf hh
  · intro l p oe
    rfl

/-- Witness for C7 at the default-configured fixture. -/
theorem default_handler_logs_warning_witness :
    exitAF gDefault (some eVE.ty) (some eVE) =
      ([Event.handlerCall "test contextmanager" eVE,
        Event.logWarning gDefault.logger (warnText "test contextmanager" eVE)],
        Except.ok true) ∧
    ∀ (l : List Tok) (p : List String) (oe : Option Handler),
      (AllowFail.init l p oe none).logger = "OnError" :=
  default_handler_logs_warning gDefault eVE "test contextmanager" rfl rfl

/-- C9: the two modes are asymmetric: `except Exception` in `protect`
does not catch a non-`Exception` signal such as `KeyboardInterrupt`, which
propagates with no `AllowFailResult`; `__exit__`, by contrast, handles the
very same exception and returns `True` unconditionally (every value it
ever returns is `True`), suppressing it. -/
theorem mode_asymmetry_uncatchable (g : AllowFail) (fname : Option String)
    (frepr : String) (e : Exc) (fl : String) (bevs : List Event)
    (hc : e.ty.catchable = false)
    (hd : g.error_handler = none)
    (hf : pyFormat g.label g.params = Except.ok fl) :
    (∀ (V : Type), @protect V g fname frepr (Except.error e) = Except.error e) ∧
    withStmt g (bevs, some e) =
      (bevs ++ [Event.handlerCall fl e,
        Event.logWarning g.logger (warnText fl e)], none) ∧
    (∀ (typ : Option ExcType) (val : Option Exc) (evs : List Event) (b : Bool),
      exitAF g typ val = (evs, Except.ok b) → b = true) := by
  refine ⟨?_, ?_, ?_⟩
  · intro V
    simp [protect, hc]
  · have hh : effectiveHandler g fl e =
        ([Event.logWarning g.logger (warnText fl e)], none) := by
      simp [effectiveHandler, hd, AllowFail.on_error]
    simp [withStmt, exitAF_handler_ok g e fl _ hf hh]
  · intro typ val evs b h
    exact exitAF_ret_true g typ val evs b h

/-- Witness for C9: `KeyboardInterrupt` escapes the decorator but is
swallowed by the block guard. -/
theorem mode_asymmetry_uncatchable_witness :
    @protect Nat gDefault none "<function f>" (Except.error eKI) =
      Except.error eKI ∧
    withStmt gDefault ([], some eKI) =
      ([Event.handlerCall "test contextmanager" eKI,
        Event.logWarning gDefault.logger (warnText "test contextmanager" eKI)],
        none) :=
  ⟨(mode_asymmetry_uncatchable gDefault none "<function f>" eKI
      "test contextmanager" [] rfl rfl rfl).1 Nat,
   (mode_asymmetry_uncatchable gDefault none "<function f>" eKI
      "test contextmanager" [] rfl rfl rfl).2.1⟩

/-- C10: scoped-block mode has no nested guard around reporting: if the
custom handler raises `he` while reporting, `he` escapes the
with-statement; likewise a label-interpolation failure in the exit path
escapes.  The decorator-mode "a misbehaving handler can never cause a
raise" invariant does not hold for block mode. -/
theorem block_handler_failure_escapes (g : AllowFail) (h : Handler)
    (e he : Exc) (fl : String) (hevs bevs : List Event)
    (hd : g.error_handler = some h) :
    (h fl e = (hevs, some he) → pyFormat g.label g.params = Except.ok fl →
      withStmt g (bevs, some e) =
        (bevs ++ Event.handlerCall fl e :: hevs, some he)) ∧
    (∀ fe : Exc, pyFormat g.label g.params = Except.error fe →
      withStmt g (bevs, some e) = (bevs, some fe)) := by
  constructor
  · intro hh hf
    have heff : effectiveHandler g fl e = (hevs, some he) := by
      simp [effectiveHandler, hd, hh]
    simp [withStmt, exitAF_handler_raise g e he fl hevs hf heff]
  · intro fe hf
    simp [withStmt, exitAF, hf]

/-- Witness for C10: the raising handler's exception (and, at a second
guard, the formatting `TypeError`) escapes the block. -/
theorem block_handler_failure_escapes_witness :
    withStmt gBoom ([], some eVE) =
      ([Event.handlerCall "test x" eVE], some heRT) ∧
    withStmt gBoomBad ([], some eVE) = ([], some notEnoughArgs) :=
  ⟨(block_handler_failure_escapes gBoom hBoom eVE heRT "test x" [] [] rfl).1
      rfl rfl,
   (block_handler_failure_escapes gBoomBad hBoom eVE heRT "unused" [] [] rfl).2
      notEnoughArgs rfl⟩
